import Mathlib

/-!
Shallow embedding of the StudySketch-AI request/response pipeline and diagram
component, together with proofs of the specified properties.

Sources embedded here:
* `src/types.ts` / `src/unnamed/part_000` — the data model (DiagramType, Message,
  Flashcard, GeneratedContent, FileData).
* `src/unnamed/part_001` — the service module: `generateDiagramAndSummary`
  (request-part assembly, prompt text, response parsing with the code-fence
  repair pass, flashcard id assignment, field normalization) and
  `askQuestionAboutContent` (context prompt assembly).
* `src/unnamed/part_002` — the `MermaidDiagram` component: the asynchronous
  render effect and the pan/zoom wrapper props.
* `src/App.tsx` — `handleSendMessage` (how the chat history passed to
  `askQuestionAboutContent` is built).

The JavaScript runtime pieces that the module calls but does not define
(`JSON.parse`, `Date.now`, the network reply) are modelled as explicit
parameters: `JSON.parse` as a function `String → Option JsonReply` restricted
to the fields the module reads, `Date.now` as a function from call ordinal to
timestamp, and the reply body as an `Option String`.
-/

namespace StudySketch

/-! ## Data model (`src/types.ts`) -/

/-- Enum `DiagramType` from `src/types.ts`. -/
inductive DiagramType
  | mindmap
  | flowchart
  | sequence
  | timeline
  | orgchart
  | gantt
deriving DecidableEq, Repr

/-- The string value of each `DiagramType` enum member (`src/types.ts` lines 1-8). -/
def DiagramType.value : DiagramType → String
  | .mindmap => "mindmap"
  | .flowchart => "flowchart"
  | .sequence => "sequence"
  | .timeline => "timeline"
  | .orgchart => "orgchart"
  | .gantt => "gantt"

/-- Chat roles from `src/types.ts` (`role: 'user' | 'model'`). -/
inductive Role
  | user
  | model
deriving DecidableEq, Repr

/-- JavaScript `role.toUpperCase()` on the two role strings. -/
def Role.toUpperCase : Role → String
  | .user => "USER"
  | .model => "MODEL"

/-- Interface `Message` from `src/types.ts`. -/
structure Message where
  id : String
  role : Role
  content : String
  timestamp : Nat
deriving DecidableEq, Repr

/-- Interface `Flashcard` from `src/types.ts`. -/
structure Flashcard where
  id : String
  front : String
  back : String
deriving DecidableEq, Repr

/-- Interface `GeneratedContent` from `src/types.ts` (the flashcard-bearing variant). -/
structure GeneratedContent where
  diagramCode : String
  summary : String
  diagramType : DiagramType
  flashcards : List Flashcard
deriving DecidableEq, Repr

/-- Interface `FileData` from `src/types.ts`; `data` is the base64 payload. -/
structure FileData where
  name : String
  mimeType : String
  data : String
deriving DecidableEq, Repr

/-- One request part pushed onto the `parts` array in `src/unnamed/part_001`:
either `{ inlineData: { mimeType, data } }` or `{ text }`. -/
inductive Part
  | inlineData (mimeType : String) (data : String)
  | text (s : String)
deriving DecidableEq, Repr

/-- Errors thrown by the service module, by message:
`apiKeyMissing` = "API Key is missing" (the spec's MissingCredentialError),
`noInput` = "No input provided" (the spec's InvalidInputError),
`processingFailed` = "Failed to process content with Gemini." (the generic
failure the spec surfaces for MalformedResponseError). -/
inductive GenError
  | apiKeyMissing
  | noInput
  | processingFailed
deriving DecidableEq, Repr

/-- JavaScript `v || d` where `v` is a string that may be `undefined`:
`undefined` and the empty string are falsy, every other string is truthy. -/
def jsOrStr (v : Option String) (d : String) : String :=
  match v with
  | none => d
  | some s => if s = "" then d else s

/-! ## Prompt text (`src/unnamed/part_001` lines 42-74)

The template literal assigned to `prompt`, with `${type}` and
`${DiagramType.X}` interpolations expanded exactly as JavaScript does
(the enum members interpolate to their string values). -/

/-- The generation prompt of `generateDiagramAndSummary`
(`src/unnamed/part_001` lines 42-74), as a function of the selected type. -/
def genPrompt (ty : DiagramType) : String :=
  "\n    Analyze the provided content (text or document) and perform three tasks:\n" ++
  "    1. Create a concise summary of the key concepts (max 300 words).\n" ++
  "    2. Generate a Mermaid.js diagram code block that visually represents the information.\n" ++
  "    3. Create 5-10 study flashcards (Question and Answer pairs) based on the most important facts.\n" ++
  "    \n    The diagram type must be: " ++ ty.value ++ ".\n" ++
  "    \n    SPECIFIC INSTRUCTIONS FOR DIAGRAM TYPE:\n" ++
  "    - mindmap: Use \x27mindmap\x27 syntax. Focus on hierarchy and connections. Root node should be central concept.\n" ++
  "    - flowchart: Use \x27graph TD\x27 or \x27graph LR\x27 syntax. Focus on processes or logical flow.\n" ++
  "    - sequence: Use \x27sequenceDiagram\x27 syntax. Focus on interactions over time.\n" ++
  "    - timeline: Use \x27timeline\x27 syntax. Focus on chronological events.\n" ++
  "    - orgchart: Use \x27graph TD\x27 syntax. Structure it hierarchically (CEO -> Managers -> Staff). Use styling (subgraphs or node shapes) to distinguish levels.\n" ++
  "    - gantt: Use \x27gantt\x27 syntax. STRICTLY follow this format:\n" ++
  "      dateFormat YYYY-MM-DD\n" ++
  "      title [Project Title]\n" ++
  "      section [Section Name]\n" ++
  "      [Task Name] : [Active Status], [Task ID], [Start Date], [Duration/End Date]\n" ++
  "      Ensure dates are realistic and relative to the current year. Avoid invalid syntax like multiple titles.\n" ++
  "\n    Output Format (JSON):\n" ++
  "    \x7b\n" ++
  "      \"summary\": \"The markdown summary here...\",\n" ++
  "      \"diagramCode\": \"The mermaid code here...\",\n" ++
  "      \"flashcards\": [\n" ++
  "        \x7b \"front\": \"Question 1?\", \"back\": \"Answer 1\" \x7d,\n" ++
  "        \x7b \"front\": \"Question 2?\", \"back\": \"Answer 2\" \x7d\n" ++
  "      ]\n" ++
  "    \x7d\n" ++
  "    \n    IMPORTANT: Return ONLY valid JSON. Ensure the mermaid code is syntactically correct and escapes characters properly. Do not include markdown formatting outside the JSON string.\n  "

/-- Request-part assembly of `generateDiagramAndSummary`
(`src/unnamed/part_001` lines 21-76): the api-key guard, the optional
inline-file part, the optional free-text part (JavaScript `if (input)` treats
the empty string as falsy), the emptiness check, and finally the prompt part. -/
def generateRequestParts (apiKey : String) (input : String) (file : Option FileData)
    (ty : DiagramType) : Except GenError (List Part) :=
  if apiKey = "" then .error .apiKeyMissing
  else
    let parts : List Part :=
      (match file with
       | some f => [Part.inlineData f.mimeType f.data]
       | none => []) ++
      (if input = "" then [] else [Part.text input])
    if parts = [] then .error .noInput
    else .ok (parts ++ [Part.text (genPrompt ty)])

/-! ## Substring test used to state the prompt-content claims -/

/-- Decides whether `pat` occurs contiguously in `l`. -/
def hasInfix (pat : List Char) : List Char → Bool
  | [] => pat.isEmpty
  | c :: cs => pat.isPrefixOf (c :: cs) || hasInfix pat cs

/-- Decides whether `pat` is a contiguous substring of `s`. -/
def containsSub (s pat : String) : Bool :=
  hasInfix pat.data s.data

/-- The Diagram Grammar Table of the spec (section 4.1 / section 6): the markup
dialect keyword each category's instructions demand.  The keywords are the ones
named in the prompt text of `src/unnamed/part_001` lines 51-56. -/
def dialectKeyword : DiagramType → String
  | .mindmap => "mindmap"
  | .flowchart => "graph TD"
  | .sequence => "sequenceDiagram"
  | .timeline => "timeline"
  | .orgchart => "graph TD"
  | .gantt => "gantt"

/-! ## Response parsing (`src/unnamed/part_001` lines 78-115)

`JSON.parse` is a JavaScript builtin; it is modelled as an explicit parameter
`parse : String → Option JsonReply`, where `JsonReply` records exactly the
fields of the decoded object that the module reads (a missing field reads as
`undefined`, i.e. `none`).  `Date.now()` is modelled as `now : Nat → Nat`,
giving the timestamp returned by its n-th call inside the flashcard map. -/

/-- A flashcard entry of the decoded reply.  The module reads only `front` and
`back`; an `id` supplied by the service (modelled here so that we can state
that it is never used) is ignored. -/
structure JFlashcard where
  id : Option String
  front : Option String
  back : Option String
deriving DecidableEq, Repr

/-- The fields of the decoded JSON reply that `generateDiagramAndSummary`
reads: `json.summary`, `json.diagramCode`, `json.flashcards`. -/
structure JsonReply where
  summary : Option String
  diagramCode : Option String
  flashcards : Option (List JFlashcard)
deriving DecidableEq, Repr

/-- Backtick character (code point 96). -/
def backtick : Char := Char.ofNat 96

/-- The cleanup `text.replace(/```json\n|\n```/g, '')` of
`src/unnamed/part_001` line 95: a left-to-right scan that deletes every
occurrence of "```json\n" (tried first, as in the regex alternation) and of
"\n```". -/
def stripFencesAux : List Char → List Char
  | [] => []
  | c :: cs =>
    if (c :: cs).take 8 = [backtick, backtick, backtick, 'j', 's', 'o', 'n', '\n'] then
      stripFencesAux ((c :: cs).drop 8)
    else if (c :: cs).take 4 = ['\n', backtick, backtick, backtick] then
      stripFencesAux ((c :: cs).drop 4)
    else c :: stripFencesAux cs
termination_by l => l.length
decreasing_by
  all_goals simp [List.length_drop]
  all_goals omega

/-- String version of `stripFencesAux`. -/
def stripFences (s : String) : String :=
  ⟨stripFencesAux s.data⟩

/-- The flashcard map of `src/unnamed/part_001` lines 100-104:
`(json.flashcards || []).map((card, index) => ({ id: `fc-...`, front: ..., back: ... }))`.
`now i` is the value of the `Date.now()` call made at index `i`. -/
def mkFlashcards (now : Nat → Nat) (cards : List JFlashcard) : List Flashcard :=
  cards.enum.map fun p =>
    { id := "fc-" ++ Nat.repr (now p.1) ++ "-" ++ Nat.repr p.1
      front := jsOrStr p.2.front ("Question")
      back := jsOrStr p.2.back ("Answer") }

/-- The returned object of `src/unnamed/part_001` lines 106-111: field
normalization of the decoded reply (`||` defaults) plus the flashcard map. -/
def normalizeReply (now : Nat → Nat) (ty : DiagramType) (json : JsonReply) : GeneratedContent :=
  { diagramCode := jsOrStr json.diagramCode ("")
    summary := jsOrStr json.summary ("Could not generate summary.")
    diagramType := ty
    flashcards := mkFlashcards now (json.flashcards.getD []) }

/-- The response-processing phase of `generateDiagramAndSummary`
(`src/unnamed/part_001` lines 88-115): `response.text || "{}"`, a direct
decode attempt, on failure one retry on the fence-stripped text, and the
result construction; any remaining failure falls to the outer `catch`, which
throws "Failed to process content with Gemini.". -/
def processResponse (parse : String → Option JsonReply) (now : Nat → Nat)
    (ty : DiagramType) (respText : Option String) : Except GenError GeneratedContent :=
  let text := jsOrStr respText ("\x7b\x7d")
  let json? : Option JsonReply :=
    match parse text with
    | some j => some j
    | none => parse (stripFences text)
  match json? with
  | some json => .ok (normalizeReply now ty json)
  | none => .error .processingFailed

/-! ## Context assembler (`src/unnamed/part_001` lines 118-156) -/

/-- The `contextPrompt` accumulation of `askQuestionAboutContent`
(`src/unnamed/part_001` lines 137-146): the fixed header, the source text when
truthy (JavaScript `if (contextText)`: `null` and `""` are falsy), the
"Chat History:" header, one `ROLE: content` line per message via `forEach`,
the `USER QUESTION:` line, and the closing instruction. -/
def contextPromptOf (history : List Message) (currentQuestion : String)
    (contextText : Option String) : String :=
  let p1 := "Context from uploaded document/notes:\n"
  let p2 :=
    match contextText with
    | some t => if t = "" then p1 else p1 ++ t ++ "\n\n"
    | none => p1
  let p3 := p2 ++ "Chat History:\n"
  let p4 := history.foldl
    (fun acc msg => acc ++ msg.role.toUpperCase ++ ": " ++ msg.content ++ "\n") p3
  let p5 := p4 ++ "\nUSER QUESTION: " ++ currentQuestion ++ "\n"
  p5 ++ "Answer the user\x27s question based strictly on the provided context. Be helpful and concise."

/-- The request parts of `askQuestionAboutContent`
(`src/unnamed/part_001` lines 126-148): the inline file payload first when a
context file is present, then the single context-prompt text part. -/
def askQuestionParts (history : List Message) (currentQuestion : String)
    (contextText : Option String) (contextFile : Option FileData) : List Part :=
  (match contextFile with
   | some f => [Part.inlineData f.mimeType f.data]
   | none => []) ++
  [Part.text (contextPromptOf history currentQuestion contextText)]

/-- The history argument `handleSendMessage` passes to
`askQuestionAboutContent` (`src/App.tsx` lines 108-125):
`[...chatMessages, newMessage]`, where `newMessage` is the freshly built user
turn for the question text (`idTs` and `ts` are the values of the two
`Date.now()` calls used for its id and timestamp). -/
def handleSendHistory (chatMessages : List Message) (text : String)
    (idTs ts : Nat) : List Message :=
  chatMessages ++ [{ id := Nat.repr idTs, role := .user, content := text, timestamp := ts }]

/-- Serialization of a transcript as the `ROLE: content` lines that
`contextPromptOf` appends, in list order (used to state the assembly claims). -/
def serializeTranscript : List Message → String
  | [] => ""
  | m :: rest => m.role.toUpperCase ++ ": " ++ m.content ++ "\n" ++ serializeTranscript rest

/-- The source-text block of the assembled context prompt (used to state the
assembly claims): the truthy source text followed by a blank line, otherwise
empty. -/
def sourceBlock (contextText : Option String) : String :=
  match contextText with
  | some t => if t = "" then "" else t ++ "\n\n"
  | none => ""

/-! ## Diagram renderer effect (`src/unnamed/part_002` lines 32-52)

The component state consists of the `svgContent` and `renderError` React
state cells.  `Date.now()`-based element ids are passed to `mermaid.render`
but never compared against anything, so the model has no attempt identity:
the effect body runs `setRenderError(null)` synchronously when markup is
submitted, and whenever an asynchronous render completes its callback applies
its result to the state unconditionally.  `mermaid.render` is modelled as a
parameter `render : String → Except String String` (markup to error message
or SVG text). -/

/-- The React state cells of `MermaidDiagram` (`src/unnamed/part_002`
lines 13-14). -/
structure RenderComponentState where
  svgContent : String
  renderError : Option String
deriving DecidableEq, Repr

/-- Events of the render effect: `submit code` is the synchronous start of the
effect body for new markup (`setRenderError(null)`, then the asynchronous
`mermaid.render` is started); `complete code` is the completion of the
asynchronous render started for `code`, applying its result to the state
(`setSvgContent(svg)` on success; `setSvgContent('')` and
`setRenderError(...)` on failure). -/
inductive REvent
  | submit (code : String)
  | complete (code : String)
deriving DecidableEq, Repr

/-- One step of the `MermaidDiagram` effect (`src/unnamed/part_002`
lines 32-52).  No identity check occurs on completion: the result of any
completed attempt is applied to the state. -/
def rstep (render : String → Except String String)
    (s : RenderComponentState) : REvent → RenderComponentState
  | .submit _ => { s with renderError := none }
  | .complete code =>
    match render code with
    | .ok svg => { s with svgContent := svg }
    | .error msg => { svgContent := "", renderError := some msg }

/-- Run a sequence of render events from a starting state. -/
def runRender (render : String → Except String String)
    (s : RenderComponentState) (events : List REvent) : RenderComponentState :=
  events.foldl (rstep render) s

/-! ## Pan/zoom viewport (`src/unnamed/part_002` lines 93-99) -/

/-- The scale props `src/unnamed/part_002` passes to `TransformWrapper`:
`initialScale={1} minScale={0.5} maxScale={4}`. -/
structure TransformProps where
  initialScale : ℚ
  minScale : ℚ
  maxScale : ℚ
deriving DecidableEq, Repr

/-- The props of the `TransformWrapper` element in `src/unnamed/part_002`
lines 93-99. -/
def mermaidTransformProps : TransformProps :=
  { initialScale := 1, minScale := 1/2, maxScale := 4 }

/-- Modelled from the spec: the viewport transform owned by the pan/zoom
wrapper (the `react-zoom-pan-pinch` library, external to the repository) —
a scale factor and a pan offset. -/
structure ViewportState where
  scale : ℚ
  posX : ℚ
  posY : ℚ
deriving DecidableEq, Repr

/-- Modelled from the spec: the viewport operations the wrapper exposes
(`zoomIn`/`zoomOut`/wheel as multiplicative zoom, drag as pan, and
`resetTransform`). -/
inductive ViewportOp
  | zoomBy (factor : ℚ)
  | panBy (dx dy : ℚ)
  | resetTransform
deriving DecidableEq, Repr

/-- Modelled from the spec: the initial viewport — the configured
`initialScale`, centered. -/
def initialViewport (p : TransformProps) : ViewportState :=
  { scale := p.initialScale, posX := 0, posY := 0 }

/-- Modelled from the spec: applying one viewport operation.  Zoom clamps the
resulting scale into `[minScale, maxScale]`; pan only translates;
`resetTransform` restores the initial transform. -/
def applyViewportOp (p : TransformProps) (v : ViewportState) : ViewportOp → ViewportState
  | .zoomBy f => { v with scale := max p.minScale (min p.maxScale (v.scale * f)) }
  | .panBy dx dy => { v with posX := v.posX + dx, posY := v.posY + dy }
  | .resetTransform => initialViewport p

/-- The full view state of the diagram panel: the renderer's state cells plus
the viewport transform held by the wrapper. -/
structure DiagramViewState where
  render : RenderComponentState
  viewport : ViewportState
deriving DecidableEq, Repr

/-- Viewport operations act only on the viewport component of the view state:
the wrapper has no access to `svgContent`/`renderError`. -/
def applyViewportOpToView (p : TransformProps) (s : DiagramViewState)
    (op : ViewportOp) : DiagramViewState :=
  { s with viewport := applyViewportOp p s.viewport op }

/-! ## Helper definitions for the proofs -/

/-- Numeric value of a decimal digit character. -/
def digitVal (c : Char) : Nat := c.toNat - 48

/-- Decimal value of a big-endian digit-character list. -/
def evalDigits (l : List Char) : Nat :=
  l.foldl (fun a c => 10 * a + digitVal c) 0

/-! ## Helper theorems: decimal representations (`Nat.repr`) -/

theorem toDigitsCore_append (b : Nat) :
    ∀ (fuel n : Nat) (ds : List Char),
      Nat.toDigitsCore b fuel n ds = Nat.toDigitsCore b fuel n [] ++ ds := by
  intro fuel
  induction fuel with
  | zero => intro n ds; simp [Nat.toDigitsCore]
  | succ fuel ih =>
    intro n ds
    simp only [Nat.toDigitsCore]
    by_cases h : n / b = 0
    · simp [h]
    · simp only [h, if_false]
      rw [ih (n / b) (Nat.digitChar (n % b) :: ds), ih (n / b) [Nat.digitChar (n % b)]]
      simp

theorem digitChar_ne_dash {k : Nat} (h : k < 10) : Nat.digitChar k ≠ '-' := by
  revert k
  decide

theorem digitVal_digitChar {k : Nat} (h : k < 10) : digitVal (Nat.digitChar k) = k := by
  revert k
  decide

theorem mem_toDigitsCore (fuel : Nat) :
    ∀ (n : Nat) (ds : List Char) (c : Char), c ∈ Nat.toDigitsCore 10 fuel n ds →
      c ∈ ds ∨ ∃ k, k < 10 ∧ c = Nat.digitChar k := by
  induction fuel with
  | zero => intro n ds c hc; exact Or.inl hc
  | succ fuel ih =>
    intro n ds c hc
    simp only [Nat.toDigitsCore] at hc
    by_cases h : n / 10 = 0
    · simp only [h, if_true] at hc
      rcases List.mem_cons.mp hc with h1 | h2
      · exact Or.inr ⟨n % 10, Nat.mod_lt _ (by decide), h1⟩
      · exact Or.inl h2
    · simp only [h, if_false] at hc
      rcases ih (n / 10) (Nat.digitChar (n % 10) :: ds) c hc with h1 | h2
      · rcases List.mem_cons.mp h1 with h3 | h4
        · exact Or.inr ⟨n % 10, Nat.mod_lt _ (by decide), h3⟩
        · exact Or.inl h4
      · exact Or.inr h2

/-- The decimal representation of a natural number contains no dash. -/
theorem repr_ne_dash (n : Nat) : ∀ c ∈ (Nat.repr n).data, c ≠ '-' := by
  intro c hc
  have hc' : c ∈ Nat.toDigitsCore 10 (n + 1) n [] := hc
  rcases mem_toDigitsCore (n + 1) n [] c hc' with h1 | ⟨k, hk, rfl⟩
  · simp at h1
  · exact digitChar_ne_dash hk

theorem evalDigits_toDigitsCore :
    ∀ (fuel n : Nat), n < fuel → evalDigits (Nat.toDigitsCore 10 fuel n []) = n := by
  intro fuel
  induction fuel with
  | zero => intro n h; omega
  | succ fuel ih =>
    intro n h
    simp only [Nat.toDigitsCore]
    by_cases h0 : n / 10 = 0
    · simp only [h0, if_true]
      have hn10 : n % 10 = n := by omega
      simp only [evalDigits, List.foldl]
      rw [digitVal_digitChar (Nat.mod_lt _ (by decide))]
      omega
    · simp only [h0, if_false]
      rw [toDigitsCore_append 10 fuel (n / 10) [(n % 10).digitChar]]
      have h1 : n / 10 < fuel := by omega
      have h2 := ih (n / 10) h1
      simp only [evalDigits, List.foldl_append, List.foldl] at h2 ⊢
      rw [h2, digitVal_digitChar (Nat.mod_lt _ (by decide))]
      omega

/-- Round-trip: `Nat.repr` evaluates back to its argument. -/
theorem evalDigits_repr (n : Nat) : evalDigits (Nat.repr n).data = n :=
  evalDigits_toDigitsCore (n + 1) n (Nat.lt_succ_self n)

/-- Splitting at a separator that occurs in neither prefix is unambiguous. -/
theorem append_dash_inj :
    ∀ (a c b d : List Char), '-' ∉ a → '-' ∉ c →
      a ++ '-' :: b = c ++ '-' :: d → a = c ∧ b = d := by
  intro a
  induction a with
  | nil =>
    intro c b d _ hc h
    cases c with
    | nil => simpa using h
    | cons x c' =>
      simp only [List.nil_append, List.cons_append, List.cons.injEq] at h
      exact absurd (h.1 ▸ List.mem_cons_self x c') hc
  | cons x a' ih =>
    intro c b d ha hc h
    cases c with
    | nil =>
      simp only [List.cons_append, List.nil_append, List.cons.injEq] at h
      exact absurd (h.1 ▸ List.mem_cons_self x a') ha
    | cons y c' =>
      simp only [List.cons_append, List.cons.injEq] at h
      obtain ⟨rfl, h2⟩ := h
      have := ih c' b d (fun hm => ha (List.mem_cons_of_mem _ hm))
        (fun hm => hc (List.mem_cons_of_mem _ hm)) h2
      exact ⟨by rw [this.1], this.2⟩

/-- A flashcard id string determines its ordinal component. -/
theorem fcId_ordinal_inj {t1 t2 i j : Nat}
    (h : "fc-" ++ Nat.repr t1 ++ "-" ++ Nat.repr i = "fc-" ++ Nat.repr t2 ++ "-" ++ Nat.repr j) :
    i = j := by
  have hd : ("fc-" ++ Nat.repr t1 ++ "-" ++ Nat.repr i).data
      = ("fc-" ++ Nat.repr t2 ++ "-" ++ Nat.repr j).data := by rw [h]
  simp only [String.data_append] at hd
  have hshape : ∀ t k : Nat, "fc-".data ++ ((Nat.repr t).data ++ ("-".data ++ (Nat.repr k).data))
      = "fc-".data ++ ((Nat.repr t).data ++ ('-' :: (Nat.repr k).data)) := by
    intro t k; rfl
  rw [List.append_assoc, List.append_assoc, List.append_assoc, List.append_assoc] at hd
  rw [hshape, hshape] at hd
  have hd2 := List.append_cancel_left hd
  have hsplit := append_dash_inj _ _ _ _
    (fun hm => repr_ne_dash t1 '-' hm rfl)
    (fun hm => repr_ne_dash t2 '-' hm rfl) hd2
  have : evalDigits (Nat.repr i).data = evalDigits (Nat.repr j).data := by rw [hsplit.2]
  rwa [evalDigits_repr, evalDigits_repr] at this

/-! ## Helper theorems: flashcard batch -/

theorem mkFlashcards_length (now : Nat → Nat) (cards : List JFlashcard) :
    (mkFlashcards now cards).length = cards.length := by
  simp [mkFlashcards]

theorem mkFlashcards_ids_nodup (now : Nat → Nat) (cards : List JFlashcard) :
    ((mkFlashcards now cards).map Flashcard.id).Nodup := by
  have hinj : Function.Injective
      (fun i => "fc-" ++ Nat.repr (now i) ++ "-" ++ Nat.repr i) := by
    intro i j h
    exact fcId_ordinal_inj h
  have heq : (mkFlashcards now cards).map Flashcard.id
      = (cards.enum.map Prod.fst).map
          (fun i => "fc-" ++ Nat.repr (now i) ++ "-" ++ Nat.repr i) := by
    simp only [mkFlashcards, List.map_map]
    rfl
  rw [heq]
  exact (List.nodup_enum_map_fst cards).map hinj

theorem mkFlashcards_id_formula (now : Nat → Nat) (cards : List JFlashcard)
    (i : Nat) (h : i < (mkFlashcards now cards).length) :
    ((mkFlashcards now cards)[i]).id = "fc-" ++ Nat.repr (now i) ++ "-" ++ Nat.repr i := by
  have h' : i < cards.enum.length := by
    simpa [mkFlashcards] using h
  simp [mkFlashcards, List.enum, List.getElem_enumFrom]

/-! ## Helper theorems: context prompt assembly -/

theorem serializeTranscript_append (l1 l2 : List Message) :
    serializeTranscript (l1 ++ l2) = serializeTranscript l1 ++ serializeTranscript l2 := by
  induction l1 with
  | nil => simp [serializeTranscript]
  | cons m rest ih =>
    rw [List.cons_append, serializeTranscript, serializeTranscript, ih]
    simp only [String.append_assoc]

theorem foldl_transcript_lines (history : List Message) :
    ∀ acc : String,
      history.foldl
        (fun acc msg => acc ++ msg.role.toUpperCase ++ ": " ++ msg.content ++ "\n") acc
        = acc ++ serializeTranscript history := by
  induction history with
  | nil => intro acc; simp [serializeTranscript]
  | cons m rest ih =>
    intro acc
    rw [List.foldl_cons, ih, serializeTranscript]
    simp only [String.append_assoc]

theorem contextPromptOf_eq (history : List Message) (q : String) (ctxText : Option String) :
    contextPromptOf history q ctxText
      = "Context from uploaded document/notes:\n" ++ sourceBlock ctxText
        ++ "Chat History:\n" ++ serializeTranscript history
        ++ "\nUSER QUESTION: " ++ q ++ "\n"
        ++ "Answer the user\x27s question based strictly on the provided context. Be helpful and concise." := by
  cases ctxText with
  | none =>
    simp only [contextPromptOf, sourceBlock]
    rw [foldl_transcript_lines]
    simp only [String.append_assoc, String.append_empty]
  | some t =>
    by_cases ht : t = ""
    · simp only [contextPromptOf, sourceBlock, ht, if_true]
      rw [foldl_transcript_lines]
      simp only [String.append_assoc, String.append_empty]
    · simp only [contextPromptOf, sourceBlock, ht, if_false]
      rw [foldl_transcript_lines]
      simp only [String.append_assoc]

/-! ## Claim theorems -/

set_option maxRecDepth 40000

/-- C1: the spec requires that when markup A is submitted and then markup B
before A's render resolves, the final render state reflects B's result and
never A's, regardless of completion order.  The effect in
`src/unnamed/part_002` performs no identity check, so when A's render
completes after B's, A's SVG is what remains in the state: evaluating the
embedded effect on that schedule leaves the stale result of A, not B's. -/
theorem c1_stale_render_overwrites_newer :
    (runRender (fun m => Except.ok ("<svg>" ++ m ++ "</svg>"))
      { svgContent := "", renderError := none }
      [REvent.submit ("graph TD; A-->B"), REvent.submit ("mindmap"),
       REvent.complete ("mindmap"), REvent.complete ("graph TD; A-->B")]).svgContent
      = "<svg>graph TD; A-->B</svg>" ∧
    "<svg>graph TD; A-->B</svg>" ≠ "<svg>mindmap</svg>" := by
  constructor
  · rfl
  · decide

/-- C2: the parser first attempts direct decoding; if that fails it applies
exactly one repair pass (stripping the markdown code-fence markers) and
retries once; if the second attempt also fails the call fails with the
malformed-response error and no partial content is produced. -/
theorem c2_parser_single_repair (parse : String → Option JsonReply) (now : Nat → Nat)
    (ty : DiagramType) (respText : Option String) :
    (∀ j, parse (jsOrStr respText ("\x7b\x7d")) = some j →
        processResponse parse now ty respText = .ok (normalizeReply now ty j)) ∧
    (∀ j, parse (jsOrStr respText ("\x7b\x7d")) = none →
        parse (stripFences (jsOrStr respText ("\x7b\x7d"))) = some j →
        processResponse parse now ty respText = .ok (normalizeReply now ty j)) ∧
    (parse (jsOrStr respText ("\x7b\x7d")) = none →
        parse (stripFences (jsOrStr respText ("\x7b\x7d"))) = none →
        processResponse parse now ty respText = .error .processingFailed) := by
  refine ⟨?_, ?_, ?_⟩
  · intro j h
    simp [processResponse, h]
  · intro j h1 h2
    simp [processResponse, h1, h2]
  · intro h1 h2
    simp [processResponse, h1, h2]

/-- Witness for C2 at a reply that fails both decoding attempts. -/
theorem c2_parser_single_repair_witness :
    processResponse (fun _ => none) (fun _ => 0) DiagramType.mindmap (some ("not json"))
      = .error .processingFailed :=
  (c2_parser_single_repair (fun _ => none) (fun _ => 0) DiagramType.mindmap
    (some ("not json"))).2.2 rfl rfl

/-- C3 counterexample: the claim says the instruction segment for a category
contains no other category's dialect keyword, but the prompt built for
`mindmap` contains `sequenceDiagram`, the keyword of the distinct category
`sequence` (the prompt lists the rules of all six categories). -/
theorem c3_mindmap_prompt_contains_sequence_keyword :
    DiagramType.sequence ≠ DiagramType.mindmap ∧
    containsSub (genPrompt DiagramType.mindmap) (dialectKeyword DiagramType.sequence) = true := by
  refine ⟨by decide, by decide⟩

/-- C3 (amended): for each of the six categories, the instruction segment
contains that category's required dialect keyword. -/
theorem c3_prompt_contains_own_keyword (c : DiagramType) :
    containsSub (genPrompt c) (dialectKeyword c) = true := by
  cases c <;> decide

/-- C4: flashcard ids in one batch are pairwise distinct, are assigned from
the generation timestamp (`Date.now()` per card) plus the ordinal position —
never from the service reply — and the batch has exactly one card per decoded
entry. -/
theorem c4_flashcard_ids (now : Nat → Nat) (cards : List JFlashcard) :
    ((mkFlashcards now cards).map Flashcard.id).Nodup ∧
    (mkFlashcards now cards).length = cards.length ∧
    ∀ i, ∀ h : i < (mkFlashcards now cards).length,
      ((mkFlashcards now cards)[i]).id = "fc-" ++ Nat.repr (now i) ++ "-" ++ Nat.repr i := by
  refine ⟨mkFlashcards_ids_nodup now cards, mkFlashcards_length now cards, ?_⟩
  intro i h
  exact mkFlashcards_id_formula now cards i h

/-- Witness for C4 on a concrete two-card batch. -/
theorem c4_flashcard_ids_witness :
    ((mkFlashcards (fun _ => 42) [⟨none, none, none⟩, ⟨some ("sent-id"), some ("Q2"), some ("A2")⟩]).map
      Flashcard.id).Nodup ∧
    (mkFlashcards (fun _ => 42) [⟨none, none, none⟩, ⟨some ("sent-id"), some ("Q2"), some ("A2")⟩]).length = 2 ∧
    ((mkFlashcards (fun _ => 42) [⟨none, none, none⟩, ⟨some ("sent-id"), some ("Q2"), some ("A2")⟩]).get
      ⟨0, by decide⟩).id = "fc-42-0" := by
  refine ⟨(c4_flashcard_ids (fun _ => 42) _).1,
    ((c4_flashcard_ids (fun _ => 42) _).2.1).trans (by decide), ?_⟩
  have h := (c4_flashcard_ids (fun _ => 42)
    [⟨none, none, none⟩, ⟨some ("sent-id"), some ("Q2"), some ("A2")⟩]).2.2 0 (by decide)
  exact h.trans rfl

/-- C5: field normalization — a missing summary becomes the placeholder, a
missing diagram markup becomes the empty string, a missing flashcards field
becomes the empty sequence, and a card with missing front/back is kept with
the placeholder strings "Question"/"Answer". -/
theorem c5_field_normalization (now : Nat → Nat) (ty : DiagramType) (json : JsonReply) :
    (json.summary = none → (normalizeReply now ty json).summary = "Could not generate summary.") ∧
    (json.diagramCode = none → (normalizeReply now ty json).diagramCode = "") ∧
    (json.flashcards = none → (normalizeReply now ty json).flashcards = []) ∧
    (∀ cards : List JFlashcard, ∀ i, ∀ hi : i < cards.length,
      ∀ hi2 : i < (mkFlashcards now cards).length,
      ((cards.get ⟨i, hi⟩).front = none →
        ((mkFlashcards now cards).get ⟨i, hi2⟩).front = "Question") ∧
      ((cards.get ⟨i, hi⟩).back = none →
        ((mkFlashcards now cards).get ⟨i, hi2⟩).back = "Answer")) := by
  refine ⟨?_, ?_, ?_, ?_⟩
  · intro h; simp [normalizeReply, jsOrStr, h]
  · intro h; simp [normalizeReply, jsOrStr, h]
  · intro h; simp [normalizeReply, h, mkFlashcards]
  · intro cards i hi hi2
    constructor
    · intro h
      simp only [List.get_eq_getElem] at h
      simp [mkFlashcards, List.enum, List.getElem_enumFrom, jsOrStr, h]
    · intro h
      simp only [List.get_eq_getElem] at h
      simp [mkFlashcards, List.enum, List.getElem_enumFrom, jsOrStr, h]

/-- Witness for C5 on a fully-missing reply and a card with missing fields. -/
theorem c5_field_normalization_witness :
    (normalizeReply (fun _ => 7) DiagramType.gantt ⟨none, none, none⟩).summary
      = "Could not generate summary." ∧
    (normalizeReply (fun _ => 7) DiagramType.gantt ⟨none, none, none⟩).diagramCode = "" ∧
    (normalizeReply (fun _ => 7) DiagramType.gantt ⟨none, none, none⟩).flashcards = [] ∧
    ((mkFlashcards (fun _ => 7) [⟨none, none, none⟩]).get ⟨0, by decide⟩).front = "Question" ∧
    ((mkFlashcards (fun _ => 7) [⟨none, none, none⟩]).get ⟨0, by decide⟩).back = "Answer" := by
  have h := c5_field_normalization (fun _ => 7) DiagramType.gantt ⟨none, none, none⟩
  refine ⟨h.1 rfl, h.2.1 rfl, h.2.2.1 rfl, ?_, ?_⟩
  · exact (h.2.2.2 [⟨none, none, none⟩] 0 (by decide) (by decide)).1 rfl
  · exact (h.2.2.2 [⟨none, none, none⟩] 0 (by decide) (by decide)).2 rfl

/-- C6: with a configured api key, the builder produces the inline file part
first (when present), the free text second (when present), the task
instructions last, and fails with the no-input error exactly when both text
and file are absent. -/
theorem c6_prompt_builder (apiKey input : String) (file : Option FileData)
    (ty : DiagramType) (hkey : apiKey ≠ "") :
    (generateRequestParts apiKey input file ty = .error .noInput ↔ (input = "" ∧ file = none)) ∧
    (∀ f, file = some f → input ≠ "" →
      generateRequestParts apiKey input file ty
        = .ok [Part.inlineData f.mimeType f.data, Part.text input, Part.text (genPrompt ty)]) ∧
    (∀ f, file = some f → input = "" →
      generateRequestParts apiKey input file ty
        = .ok [Part.inlineData f.mimeType f.data, Part.text (genPrompt ty)]) ∧
    (file = none → input ≠ "" →
      generateRequestParts apiKey input file ty
        = .ok [Part.text input, Part.text (genPrompt ty)]) := by
  refine ⟨?_, ?_, ?_, ?_⟩
  · constructor
    · intro h
      by_cases hin : input = "" <;> cases file <;>
        simp [generateRequestParts, hkey, hin] at h ⊢
    · rintro ⟨hin, rfl⟩
      simp [generateRequestParts, hkey, hin]
  · rintro f rfl hin
    simp [generateRequestParts, hkey, hin]
  · rintro f rfl hin
    simp [generateRequestParts, hkey, hin]
  · rintro rfl hin
    simp [generateRequestParts, hkey, hin]

/-- Witness for C6: both inputs absent yields the no-input error. -/
theorem c6_prompt_builder_witness :
    generateRequestParts ("key") ("") none DiagramType.mindmap = .error .noInput :=
  ((c6_prompt_builder ("key") "" none DiagramType.mindmap (by decide)).1).mpr ⟨rfl, rfl⟩

/-- C7: the assembled instruction text embeds, in order, the source text (if
truthy), the prior transcript as `ROLE: content` lines in list order, the new
question, and the answer-strictly-from-context instruction; the original file
payload is re-attached as the first, inline-data request part on every call. -/
theorem c7_context_assembler (history : List Message) (q : String)
    (ctxText : Option String) (ctxFile : Option FileData) :
    contextPromptOf history q ctxText
      = "Context from uploaded document/notes:\n" ++ sourceBlock ctxText
        ++ "Chat History:\n" ++ serializeTranscript history
        ++ "\nUSER QUESTION: " ++ q ++ "\n"
        ++ "Answer the user\x27s question based strictly on the provided context. Be helpful and concise." ∧
    (∀ f, ctxFile = some f →
      askQuestionParts history q ctxText ctxFile
        = [Part.inlineData f.mimeType f.data,
           Part.text (contextPromptOf history q ctxText)]) ∧
    (ctxFile = none →
      askQuestionParts history q ctxText ctxFile
        = [Part.text (contextPromptOf history q ctxText)]) := by
  refine ⟨contextPromptOf_eq history q ctxText, ?_, ?_⟩
  · rintro f rfl
    simp [askQuestionParts]
  · rintro rfl
    simp [askQuestionParts]

/-- Witness for C7 on the spec's scenario: one prior user turn, a new
question, literal source text, and an attached file. -/
theorem c7_context_assembler_witness :
    askQuestionParts [{ id := ("1"), role := .user, content := ("What is X?"), timestamp := 1 }]
        ("And Y?") (some ("X is 1. Y is 2.")) (some ⟨("notes.pdf"), ("application/pdf"), ("QQ==")⟩)
      = [Part.inlineData ("application/pdf") ("QQ=="),
         Part.text (contextPromptOf
           [{ id := ("1"), role := .user, content := ("What is X?"), timestamp := 1 }]
           ("And Y?") (some ("X is 1. Y is 2.")))] :=
  (c7_context_assembler _ _ _ _).2.1 _ rfl

/-- C8: with the props `src/unnamed/part_002` passes (`initialScale 1`,
`minScale 0.5`, `maxScale 4`), the scale after any sequence of viewport
operations stays in [0.5, 4]; the initial scale is 1; reset returns the scale
to 1; and viewport operations never change the renderer's state. -/
theorem c8_viewport_bounds (ops : List ViewportOp) (s : DiagramViewState) :
    (1/2 ≤ (ops.foldl (applyViewportOp mermaidTransformProps)
        (initialViewport mermaidTransformProps)).scale ∧
      (ops.foldl (applyViewportOp mermaidTransformProps)
        (initialViewport mermaidTransformProps)).scale ≤ 4) ∧
    (initialViewport mermaidTransformProps).scale = 1 ∧
    (∀ v : ViewportState,
      (applyViewportOp mermaidTransformProps v ViewportOp.resetTransform).scale = 1) ∧
    (ops.foldl (applyViewportOpToView mermaidTransformProps) s).render = s.render := by
  have key : ∀ (l : List ViewportOp) (v : ViewportState),
      1/2 ≤ v.scale ∧ v.scale ≤ 4 →
      1/2 ≤ (l.foldl (applyViewportOp mermaidTransformProps) v).scale ∧
        (l.foldl (applyViewportOp mermaidTransformProps) v).scale ≤ 4 := by
    intro l
    induction l with
    | nil => intro v hv; exact hv
    | cons op rest ih =>
      intro v hv
      refine ih _ ?_
      cases op with
      | zoomBy f =>
        constructor
        · exact le_max_left _ _
        · simp only [applyViewportOp, mermaidTransformProps]
          rw [max_le_iff]
          exact ⟨by norm_num, le_trans (min_le_left _ _) (le_refl _)⟩
      | panBy dx dy => exact hv
      | resetTransform =>
        constructor <;> norm_num [applyViewportOp, initialViewport, mermaidTransformProps]
  have hrender : ∀ (l : List ViewportOp) (st : DiagramViewState),
      (l.foldl (applyViewportOpToView mermaidTransformProps) st).render = st.render := by
    intro l
    induction l with
    | nil => intro st; rfl
    | cons op rest ih =>
      intro st
      rw [List.foldl_cons, ih]
      rfl
  refine ⟨key ops _ ⟨by norm_num [initialViewport, mermaidTransformProps], by
    norm_num [initialViewport, mermaidTransformProps]⟩, rfl, fun v => rfl, hrender ops s⟩

/-- C9: an empty or absent reply body is substituted with "{}" before
decoding, so a parser that decodes "{}" to the empty object makes the call
succeed with the fully defaulted content instead of failing. -/
theorem c9_empty_reply_defaults (parse : String → Option JsonReply) (now : Nat → Nat)
    (ty : DiagramType) (respText : Option String)
    (hempty : respText = none ∨ respText = some "")
    (hparse : parse ("\x7b\x7d") = some ⟨none, none, none⟩) :
    processResponse parse now ty respText
      = .ok { diagramCode := "", summary := "Could not generate summary."
              diagramType := ty, flashcards := [] } := by
  have htext : jsOrStr respText ("\x7b\x7d") = "\x7b\x7d" := by
    rcases hempty with rfl | rfl <;> simp [jsOrStr]
  simp only [processResponse, htext, hparse]
  simp [normalizeReply, jsOrStr, mkFlashcards]

/-- Witness for C9 with an absent reply body and a parser that decodes "{}". -/
theorem c9_empty_reply_defaults_witness :
    processResponse (fun s => if s = ("\x7b\x7d") then some ⟨none, none, none⟩ else none)
        (fun _ => 0) DiagramType.timeline none
      = .ok { diagramCode := "", summary := "Could not generate summary."
              diagramType := DiagramType.timeline, flashcards := [] } :=
  c9_empty_reply_defaults _ (fun _ => 0) DiagramType.timeline none (Or.inl rfl) (by simp)

/-- C10: because `handleSendMessage` appends the new user turn to the history
before calling the assembler, the question text appears twice in the
assembled instruction: once as the final `USER:` transcript line and once in
the dedicated `USER QUESTION:` line. -/
theorem c10_question_duplicated (chatMessages : List Message) (text : String)
    (ctxText : Option String) (idTs ts : Nat) :
    contextPromptOf (handleSendHistory chatMessages text idTs ts) text ctxText
      = "Context from uploaded document/notes:\n" ++ sourceBlock ctxText
        ++ "Chat History:\n" ++ serializeTranscript chatMessages
        ++ "USER: " ++ text ++ "\n"
        ++ "\nUSER QUESTION: " ++ text ++ "\n"
        ++ "Answer the user\x27s question based strictly on the provided context. Be helpful and concise." := by
  rw [contextPromptOf_eq, handleSendHistory, serializeTranscript_append]
  simp only [serializeTranscript, Role.toUpperCase, String.append_assoc, String.append_empty]
  rfl

end StudySketch
